import Mathlib

/-!
Verification of the statechart core of this repository (a Python port of the
SproutCore statechart framework): `kivy/statechart/private/state_path_matcher.py`,
`kivy/statechart/debug/sequence_matcher.py` and `kivy/statechart/system/state.py`.

The embedding follows the Python source statement by statement.  Fallible code is
modelled in an `Except PyErr` monad: evaluating an undefined Python name raises
`NameError`, indexing a `dict` with a missing key raises `KeyError`, accessing a
missing attribute raises `AttributeError`, and calling a function with the wrong
number of arguments raises `TypeError`, exactly as CPython (this is Python 2
source: it uses `print` statements and `basestring`).  Observable side effects
(logging, delegation calls into the owning statechart) are collected in a
`List Eff`.  A run that raises yields only the exception; effects emitted
before the raise are not retained by the model.
-/

namespace Kivy

/-- Python exceptions that the embedded code can raise.  Each constructor carries
the identifying payload (the undefined name, the missing key, ...). -/
inductive PyErr where
  | nameError (name : String)
  | keyError (key : String)
  | typeError (msg : String)
  | attributeError (attr : String)
  | indexError (msg : String)
  | unboundLocalError (name : String)
  | fuelExhausted
deriving Repr, DecidableEq

/-- Observable side effects of the embedded code: log messages and calls into
the owning statechart / statechart delegate. -/
inductive Eff where
  | logError (msg : String)
  | logWarning (msg : String)
  | logTrace (msg : String)
  | printed (msg : String)
  | scGotoState
  | scResumeGotoState
  | delegateBindStateToRoute
deriving Repr, DecidableEq

/-! ## `state_path_matcher.py`

`StatePathMatcher.match` (lines 161-165):

```
def match(self, path):
    self._stack = path.split('.')
    if path is None or isinstance(path, String):
        return False
    return self._chain.match()
```

The module contains no import statement at all, so the name `String` on
line 163 is undefined.  For a string argument, `path.split('.')` succeeds and
`path is None` is false, so CPython evaluates `isinstance(path, String)` and
raises `NameError`.  For `None` or any other non-string argument, the very
first statement `path.split('.')` raises `AttributeError` (those objects have
no `split` method).  The token chain (`_BasicToken.match`,
`_ExpandToken.match`, lines 219-271) is therefore never consulted: control
never reaches `self._chain.match()`. -/

/-- The kinds of value a caller can pass as `path` to `StatePathMatcher.match`. -/
inductive PyPathVal where
  | pyNone
  | pyStr (s : String)
  | pyInt (n : Int)
deriving Repr, DecidableEq

/-- `StatePathMatcher` model.  `match` raises before ever reading the parsed
token chain, so only the expression is carried. -/
structure StatePathMatcher where
  expression : Option String
deriving Repr, DecidableEq

/-- `StatePathMatcher.match` (state_path_matcher.py lines 161-165), translated
statement by statement; `match` is a Lean keyword, hence the primed name. -/
def StatePathMatcher.match' (_m : StatePathMatcher) (path : PyPathVal) : Except PyErr Bool :=
  match path with
  | .pyNone =>
      -- `path.split('.')`: `NoneType` has no attribute `split`
      .error (.attributeError "split")
  | .pyInt _ =>
      -- `path.split('.')`: `int` has no attribute `split`
      .error (.attributeError "split")
  | .pyStr _ =>
      -- `path.split('.')` succeeds; `path is None` is False; evaluating
      -- `isinstance(path, String)` raises: the module defines no name `String`
      .error (.nameError "String")

/-! ## `sequence_matcher.py`

The group "dict literals" of the port keep JavaScript object-literal syntax:

```
def beginSequence(self):
    group = { type: 'sequence', values: [] }
```

In Python the keys of a dict literal are expressions; `type` evaluates to the
builtin, but `values` is an undefined name, so `beginSequence` (and the
identical `beginConcurrent`, line 41) raise `NameError` on every call.  `begin`
(line 13) calls `self.beginSequence()` and therefore raises as well: no
sequence specification can ever be built.

`_matchConcurrent` (lines 120-157) initialises its locals with
`match = false` (line 125); `false` is an undefined name in Python, so the
method raises `NameError` before examining a single branch — even when handed
a well-formed group object.  (The port also mis-indents the original loop: the
`del values[i]` / `marker = tempMarker` statements sit behind an
unconditional `return self.MISMATCH`, and the final `return marker` sits
inside the `while`, so the control flow could not implement the documented
permutation search even without the `NameError`.)

`end` (lines 19-30) computes
`result = self._matchSequence(self._start, 0) is length(monitor.sequence)`;
Python evaluates the left operand first and then raises `NameError`: `length`
is not a defined name.  `_matchSequence` (lines 75-102) reads
`val.tokenType` from each stored value; the stored values are dicts, and
dicts do not expose their keys as attributes, so any non-empty group raises
`AttributeError` (the groups are also built with key `type`, not
`tokenType`). -/

/-- A value stored in a group's `values` list: either a nested group dict or an
`entered`/`exited` item dict.  Both are dicts, so attribute access on them
raises `AttributeError`. -/
inductive SeqVal where
  | groupDict
  | itemDict
deriving Repr, DecidableEq

/-- The intended shape of a matcher group (the shape the original code meant to
build): a type tag and a list of values.  The port can never actually construct
one (see `beginSequence`), but `_matchConcurrent` / `_matchSequence` are
modelled on this shape so their own behaviour can be examined. -/
structure Group where
  gtype : String
  values : List SeqVal
deriving Repr, DecidableEq

/-- The statechart monitor, as far as the sequence matcher reads it: only
`len(monitor.sequence)` is ever consulted before a raise. -/
structure StatechartMonitor where
  sequenceLength : Nat
deriving Repr, DecidableEq

/-- `StatechartSequenceMatcher` model: the monitor, the group stack
(`self._stack`, length is all that `end` inspects) and `self._start`. -/
structure StatechartSequenceMatcher where
  monitor : StatechartMonitor
  stack : List Group
  start : Group
deriving Repr, DecidableEq

/-- Result of `_matchSequence`/`_matchConcurrent`: either an advanced marker or
the `MISMATCH` sentinel object. -/
inductive MarkerResult where
  | mismatch
  | marker (n : Nat)
deriving Repr, DecidableEq

/-- `StatechartSequenceMatcher.beginSequence` (sequence_matcher.py lines 54-60).
Evaluating the dict literal's key `values` raises `NameError`: `values` is not
a defined name in that scope. -/
def StatechartSequenceMatcher.beginSequence (_m : StatechartSequenceMatcher) :
    Except PyErr StatechartSequenceMatcher :=
  .error (.nameError "values")

/-- `StatechartSequenceMatcher.beginConcurrent` (lines 40-48): same dict
literal, same `NameError`. -/
def StatechartSequenceMatcher.beginConcurrent (_m : StatechartSequenceMatcher) :
    Except PyErr StatechartSequenceMatcher :=
  .error (.nameError "values")

/-- `StatechartSequenceMatcher.begin` (lines 13-17): sets `self._stack = []`
and calls `self.beginSequence()`, which raises. -/
def StatechartSequenceMatcher.begin (_m : StatechartSequenceMatcher) :
    Except PyErr StatechartSequenceMatcher :=
  .error (.nameError "values")

/-- `StatechartSequenceMatcher._matchSequence` (lines 75-102).  With no values
the marker is returned; with a marker beyond the monitor sequence `MISMATCH` is
returned; otherwise the first loop iteration evaluates `val.tokenType` on a
dict and raises `AttributeError`. -/
def StatechartSequenceMatcher.matchSequence (monitor : StatechartMonitor)
    (sequence : Group) (marker : Nat) : Except PyErr MarkerResult :=
  if sequence.values.length = 0 then
    .ok (.marker marker)
  else if marker > monitor.sequenceLength then
    .ok .mismatch
  else
    .error (.attributeError "tokenType")

/-- `StatechartSequenceMatcher._matchConcurrent` (lines 120-157), translated
statement by statement up to the raise on line 125. -/
def StatechartSequenceMatcher.matchConcurrent (_monitor : StatechartMonitor)
    (concurrent : Group) (marker : Nat) : Except PyErr MarkerResult :=
  -- values = concurrent.values[:] ; numberOfValues = len(values)
  let _values := concurrent.values
  let _numberOfValues := _values.length
  -- val = '' ; tempMarker = marker
  let _tempMarker := marker
  -- match = false : `false` is not a defined name in Python
  .error (.nameError "false")

/-- `StatechartSequenceMatcher.end` (lines 19-30); `end` is a Lean keyword,
hence the primed name.  `endSequence` pops the stack (IndexError when empty);
a non-empty remaining stack triggers `raise "can not match sequence..."`, and
raising a `str` in Python 2.6+ raises `TypeError`; otherwise
`self._matchSequence(self._start, 0)` is evaluated and then the undefined name
`length` raises `NameError`. -/
def StatechartSequenceMatcher.end' (m : StatechartSequenceMatcher) : Except PyErr Bool :=
  if m.stack.length = 0 then
    .error (.indexError "pop from empty list")
  else if m.stack.length - 1 > 0 then
    .error (.typeError "exceptions must derive from BaseException")
  else
    match StatechartSequenceMatcher.matchSequence m.monitor m.start 0 with
    | .error e => .error e
    | .ok _ => .error (.nameError "length")

/-! ## `state.py`

`State` is a kivy `EventDispatcher` with the class-level properties declared on
lines 38-195 and the per-instance registries set up in `__init__`
(lines 208-213).  The model below carries exactly the pieces of that state
that the embedded methods read or write.  Substate and handler registries that
a method only crashes before reaching are not duplicated here. -/

/-- The kinds of value `self.initialSubstate` can hold (source doc comment,
lines 115-131: a state-name string, a state/history-state class, or the state
object the statechart later installs). -/
inductive ISVal where
  | pyNone
  | strVal (s : String)
  | historyClass (defaultState : Option String)
  | historyInstance (defaultState : Option String)
  | stateClass (isSub : Bool)
  | stateInstance (name : String)
deriving Repr, DecidableEq

/-- Python truthiness of an `ISVal`: `None` and the empty string are falsy. -/
def ISVal.truthy : ISVal → Bool
  | .pyNone => false
  | .strVal s => s ≠ ""
  | _ => true

/-- `inspect.isclass` on an `ISVal`: true exactly for class objects. -/
def inspect_isclass : ISVal → Bool
  | .historyClass _ => true
  | .stateClass _ => true
  | _ => false

/-- `isinstance(v, HistoryState)`: true exactly for HistoryState *instances*.
A class object is an instance of `type`, not of `HistoryState` (`HistoryState`
derives from `State`, it is not a metaclass), so this is false for
`historyClass` — which is why the guard on line 331 of state.py,
`inspect.isclass(initialSubstate) and isinstance(initialSubstate, HistoryState)`,
can never be satisfied (the original used `issubclass`). -/
def isinstance_HistoryState : ISVal → Bool
  | .historyInstance _ => true
  | _ => false

/-- An event listed by an event handler decorator: a string or something else
(the original also allowed regular expressions; `RegExp` is an undefined name
in the port). -/
inductive EvSpec where
  | strEv (s : String)
  | otherEv
deriving Repr, DecidableEq

/-- An argument registered with a state observe handler. -/
inductive ObsArg where
  | strArg (s : String)
  | nonStrArg
deriving Repr, DecidableEq

/-- The kinds of attribute value `getattr(self, key)` can produce in the
`dir(self)` loop of `initState` (lines 344-386).

* `instFunc`: a plain function object stored in the instance dict; this is the
  only shape for which Python 2's `inspect.isfunction` is true.  The three
  `Option Bool` fields model the optional function attributes the loop reads:
  `none` means the attribute is missing (reading it raises `AttributeError`),
  `some false` means it is present but `None`/false, `some true` means set.
  `events`/`observeArgs` model `handler.events` / `handler.args`.
* `method`: a class-defined method; `getattr` yields a *bound method*, for
  which `inspect.isfunction` is false, so the loop skips all handler checks.
* `stateCls`: a class attribute; `isSub` is `issubclass(value, State)`.
* `plainVal`: any other value. -/
inductive AttrVal where
  | instFunc (isEventHandler : Option Bool) (isStateObserveHandler : Option Bool)
      (statePlugin : Option Bool) (events : List EvSpec) (observeArgs : Option (List ObsArg))
  | method
  | stateCls (isSub : Bool)
  | plainVal
deriving Repr, DecidableEq

/-- Model of a `State` instance. -/
structure StateModel where
  name : Option String
  stateIsInitialized : Bool
  initialSubstate : ISVal
  substatesAreConcurrent : Bool
  representRoute : Option String
  isConcurrentState : Bool
  statechartPresent : Bool
  registeredEventHandlerNames : List String
  registeredStateObserveHandlerNames : List String
  attrs : List (String × AttrVal)
  substates : List String
  currentSubstates : List String
  enteredSubstates : List String
deriving Repr, DecidableEq

namespace State

/-- `State.pathRelativeTo` (state.py lines 686-698).  The method walks the
parent chain, possibly logging an error when the given state is not an
ancestor, but its final statement is the bare expression `path` — not
`return path` — so the function always returns `None`.
`isAncestorOrSelf` records whether the walk reaches the given state. -/
def pathRelativeTo (isAncestorOrSelf : Bool) : Option String × List Eff :=
  if isAncestorOrSelf then (none, [])
  else (none, [Eff.logError "Can not generate relative path from {0} since it not a parent state of {1}"])

/-- `State._registerSubstate` (lines 662-676): `path = state.pathRelativeTo(self)`
is always `None` (see `pathRelativeTo`), so the method returns on line 666
before touching any registry.  The registration code below it (which would
raise: `regPaths[state.name]` on a fresh dict is a `KeyError`, and `statename`
on line 676 is an undefined name) is unreachable. -/
def registerSubstate : List Eff := []

/-- `State._registerWithParentStates` (lines 652-657): calls
`parent._registerSubstate(self)` for every ancestor; each call is a no-op. -/
def registerWithParentStates (_s : StateModel) : List Eff := []

/-- `State._setupRouteHandling` (lines 400-412): returns when no route is
assigned; logs an error for a concurrent state; otherwise delegates the
binding to the statechart delegate. -/
def setupRouteHandling (s : StateModel) : List Eff :=
  match s.representRoute with
  | none => []
  | some _ =>
      if s.isConcurrentState then
        [Eff.logError "State {0} cannot handle route '{1}' since state is concurrent"]
      else
        [Eff.delegateBindStateToRoute]

/-- `State._registerEventHandler` (lines 600-621).  The handler is first stored
under its name; then the `while` loop over `handler.events` is entered.  A
string event stores the handler and hits `continue` *without* incrementing
`i`, so the loop never terminates (modelled as the error `fuelExhausted`); a
non-string event evaluates `isinstance(event, RegExp)` and raises `NameError`
(`RegExp` is not a defined name in this module). -/
def registerEventHandler (s : StateModel) (name : String) (events : List EvSpec) :
    Except PyErr StateModel :=
  let s' := { s with registeredEventHandlerNames := s.registeredEventHandlerNames ++ [name] }
  match events with
  | [] => .ok s'
  | .strEv _ :: _ => .error .fuelExhausted
  | .otherEv :: _ => .error (.nameError "RegExp")

/-- `State._registerStateObserveHandler` (lines 629-646).  `args = handler.args`
raises `AttributeError` when the function has no `args` attribute.  The
validation loop evaluates, for a string argument,
`not isinstance(arg, basestring) or empty(arg)` — `empty` is an undefined
name, so the first string argument raises `NameError`.  Non-string arguments
are logged as invalid; if any argument was invalid nothing is registered.  An
empty argument list registers the handler. -/
def registerStateObserveHandler (s : StateModel) (name : String)
    (args? : Option (List ObsArg)) : Except PyErr (StateModel × List Eff) :=
  match args? with
  | none => .error (.attributeError "args")
  | some args =>
      if args.any (fun a => match a with | .strArg _ => true | .nonStrArg => false) then
        .error (.nameError "empty")
      else if args.isEmpty then
        .ok ({ s with registeredStateObserveHandlerNames :=
                s.registeredStateObserveHandlerNames ++ [name] }, [])
      else
        .ok (s, args.map (fun _ => Eff.logError "Invalid argument {0} for state observe handler {1} in state {2}"))

/-- `State._addEmptyInitialSubstateIfNeeded` (lines 483-501): returns `None`
when an initial substate is already set or the substates are concurrent;
otherwise it evaluates `self.createSubstate(EmptyState)` and raises
`NameError` — `EmptyState` is never imported in state.py. -/
def addEmptyInitialSubstateIfNeeded (s : StateModel) : Except PyErr (Option Unit) :=
  if s.initialSubstate ≠ ISVal.pyNone ∨ s.substatesAreConcurrent then
    .ok none
  else
    .error (.nameError "EmptyState")

/-- A freshly constructed substate instance, as built by
`State.createSubstate` (lines 587-591) from a bare substate class: name set
from the `attr` hash, uninitialized, no class-body attributes beyond the
defaults (substate classes are modelled without nested class attributes;
their own `dir` snapshot still contains the mandatory `__class__` entry, so
a child's `initState` raises `TypeError` in its first iteration before
recursing further — though the parent's `setattr` raises first, on line 515,
before the child's `initState` on line 517 is ever reached). -/
def defaultChild (key : String) : StateModel :=
  { name := some key, stateIsInitialized := false, initialSubstate := .pyNone,
    substatesAreConcurrent := false, representRoute := none, isConcurrentState := false,
    statechartPresent := true, registeredEventHandlerNames := [],
    registeredStateObserveHandlerNames := [], attrs := [], substates := [],
    currentSubstates := [], enteredSubstates := [] }

/-- Replace (or add) an attribute binding in the instance's attribute map. -/
def setAttr (attrs : List (String × AttrVal)) (key : String) (v : AttrVal) :
    List (String × AttrVal) :=
  if attrs.any (fun p => p.1 = key) then
    attrs.map (fun p => if p.1 = key then (key, v) else p)
  else
    attrs ++ [(key, v)]

/-- `setattr(self, name, state)` as executed on line 515 of state.py.  The
`dir(self)` loop necessarily reaches the mandatory attribute `__class__`
(see `initStateGo`), and CPython rejects assigning an *instance* to
`__class__` with `TypeError`; any other name is simply bound. -/
def setattrPy (attrs : List (String × AttrVal)) (key : String) (v : AttrVal) :
    Except PyErr (List (String × AttrVal)) :=
  if key = "__class__" then .error (.typeError "__class__ must be set to a class")
  else .ok (setAttr attrs key v)

/-- The state of `initState`'s `dir(self)` loop (lines 344-386): the object
being initialized plus the live locals.  `localInitialSubstate` is the local
variable `initialSubstate` bound on line 318 (lines 370 and 378 read the
local, not the property); `localInitialSubstateName` is `none` when the local
`initialSubstateName` was never assigned (line 320 runs only for a truthy
string), in which case reading it raises `UnboundLocalError`;
`historyState` is the local of the same name, which stays `None` because the
branch on line 331 is unreachable. -/
structure InitLoopSt where
  self : StateModel
  localInitialSubstate : ISVal
  localInitialSubstateName : Option String
  matched : Bool
  historyState : Option Unit
  effs : List Eff
deriving Repr, DecidableEq

/-- One phase of `initState` after the initialized-check: `enter` performs the
statements before the `dir(self)` loop (lines 310-339); `loop` runs the loop
body (lines 344-386) over the remaining attribute snapshot. -/
inductive InitPhase where
  | enter (s : StateModel)
  | loop (st : InitLoopSt) (rest : List (String × AttrVal))
deriving Repr, DecidableEq

/-- Lines 370-386 of state.py, the tail of each `dir(self)` loop iteration:
the unable-to-set-initial-substate error (lines 370-371), the
empty-initial-substate handling (lines 373-380) and the assignments
`self.currentSubstates = []`, `self.enteredSubstates = []`,
`self.stateIsInitialized = True` (lines 384-386) — all of which the port
indents *inside* the `for` loop, so they run once per attribute (except for
iterations ended by a `continue`). -/
def initStateTail (st : InitLoopSt) : Except PyErr InitLoopSt :=
  -- lines 370-371
  let effs1 := if st.localInitialSubstate ≠ ISVal.pyNone ∧ ¬ st.matched then
      [Eff.logError "Unable to set initial substate {0} since it did not match any of state's {1} substates"]
    else []
  -- lines 373-380
  match (if st.self.substates.length = 0 then
          if st.localInitialSubstate = ISVal.pyNone then
            Except.ok ([Eff.logWarning "Unable to make {0} an initial substate since state {1} has no substates"], st.self)
          else Except.ok ([], st.self)
        else
          match State.addEmptyInitialSubstateIfNeeded st.self with
          | .error e => .error e
          | .ok stOpt =>
              if stOpt.isNone ∧ st.localInitialSubstate.truthy ∧ st.self.substatesAreConcurrent then
                Except.ok ([Eff.logWarning "Can not use {0} as initial substate since substates are all concurrent for state {1}"],
                  { st.self with initialSubstate := ISVal.pyNone })
              else Except.ok ([], st.self)) with
  | .error e => .error e
  | .ok (effs2, s') =>
      -- lines 384-386 (inside the loop): self.currentSubstates = [];
      -- self.enteredSubstates = []; self.stateIsInitialized = True
      let s'' := { s' with currentSubstates := [] }
      let s'' := { s'' with enteredSubstates := [] }
      let s'' := { s'' with stateIsInitialized := true }
      .ok { st with self := s'', effs := st.effs ++ effs1 ++ effs2 }

/-- The body of `State.initState` (lines 306-386), one fuel unit per phase so
that the recursion through substate initialization (line 517) is structural.

The loop on line 344 iterates over `dir(self)`, which for every Python object
necessarily contains the mandatory attribute `__class__` — whose value is the
instance's own class, a subclass of `State`, so it satisfies the line-361
check `inspect.isclass(value) and issubclass(value, State)` and is fed to
`_addSubstate`, where `setattr(self, '__class__', <instance>)` (line 515)
raises `TypeError`.  The snapshot handed to the loop therefore always starts
with the `__class__` entry (it is the alphabetically first `dir` entry of
interest: the dunder names sort before the single-underscore and plain
attributes, and every dunder other than `__class__` is a bound method or a
plain value, which the loop body merely skips into its tail); `attrs` models
the object's remaining attributes. -/
def initStateGo : Nat → InitPhase → Except PyErr (StateModel × List Eff)
  | 0, _ => .error .fuelExhausted
  | Nat.succ fuel, .enter s =>
      -- lines 310-311
      let effs0 := registerWithParentStates s ++ setupRouteHandling s
      -- line 318: initialSubstate = self.initialSubstate
      let localIS := s.initialSubstate
      -- lines 319-321: the local (and instance attribute) initialSubstateName is
      -- assigned only when initialSubstate is a truthy string
      let localName : Option String :=
        match localIS with
        | .strVal str => if str ≠ "" then some str else none
        | _ => none
      -- line 327: self.substates = substates  (empty list)
      let s := { s with substates := [] }
      -- line 344: `for key in dir(self):` — the snapshot always contains the
      -- mandatory `__class__` entry (a State subclass) first
      let dirSnapshot := ("__class__", AttrVal.stateCls true) :: s.attrs
      -- line 331: `if inspect.isclass(initialSubstate) and isinstance(initialSubstate, HistoryState)`.
      -- The conjunction is unsatisfiable (see `isinstance_HistoryState`), so the
      -- body (lines 332-339) is dead code; it is embedded anyway.
      if inspect_isclass localIS && isinstance_HistoryState localIS then
        -- lines 332-339 (dead code): create the history state, install it, and
        -- reject it again when it carries no default state
        let hist : ISVal :=
          match localIS with
          | .historyClass ds => .historyInstance ds
          | v => v
        let noDefault : Bool := match hist with | .historyInstance none => true | _ => false
        let s := { s with initialSubstate := if noDefault then ISVal.pyNone else hist }
        let effs1 := if noDefault then
            effs0 ++ [Eff.logError "Initial substate is invalid. History state requires the name of a default state to be set"]
          else effs0
        initStateGo fuel (.loop ⟨s, localIS, localName, false,
          if noDefault then none else some (), effs1⟩ dirSnapshot)
      else
        initStateGo fuel (.loop ⟨s, localIS, localName, false, none, effs0⟩ dirSnapshot)
  | Nat.succ _, .loop st [] => .ok (st.self, st.effs)
  | Nat.succ fuel, .loop st ((key, v) :: tl) =>
      -- lines 346-348: value = getattr(self, key); valueIsFunc = inspect.isfunction(value)
      match v with
      | .instFunc isEH isObs statePlugin events obsArgs =>
          -- line 350: `if valueIsFunc and value.isEventHandler:`
          (match isEH with
          | none => .error (.attributeError "isEventHandler")
          | some true =>
              -- line 351: self._registerEventHandler(key, value); continue
              match State.registerEventHandler st.self key events with
              | .error e => .error e
              | .ok s' => initStateGo fuel (.loop { st with self := s' } tl)
          | some false =>
              -- line 354: `if valueIsFunc and value.isStateObserveHandler:`
              match isObs with
              | none => .error (.attributeError "isStateObserveHandler")
              | some true =>
                  -- line 355: self._registerStateObserveHandler(key, value); continue
                  match State.registerStateObserveHandler st.self key obsArgs with
                  | .error e => .error e
                  | .ok (s', effs) =>
                      initStateGo fuel (.loop { st with self := s', effs := st.effs ++ effs } tl)
              | some false =>
                  -- line 358: `if valueIsFunc and value.statePlugin is not None:`
                  match statePlugin with
                  | none => .error (.attributeError "statePlugin")
                  | some _ =>
                      -- when present and not None, `value = value(self)` replaces the
                      -- value with the plugin's product (a State *instance*, line 1445,
                      -- hence not a class); either way the class check on line 361 is
                      -- false for it, and the loop tail (lines 370-386) runs
                      match initStateTail st with
                      | .error e => .error e
                      | .ok st' => initStateGo fuel (.loop st' tl))
      | .method =>
          -- a bound method: inspect.isfunction is false in Python 2, not a class
          (match initStateTail st with
          | .error e => .error e
          | .ok st' => initStateGo fuel (.loop st' tl))
      | .plainVal =>
          (match initStateTail st with
          | .error e => .error e
          | .ok st' => initStateGo fuel (.loop st' tl))
      | .stateCls isSub =>
          -- line 361: `if inspect.isclass(value) and issubclass(value, State) and
          --            getattr(self, key) is not self.__init__:`
          if isSub then
            -- line 362: state = self._addSubstate(key, value, None).
            -- _addSubstate (lines 504-519): createSubstate (510),
            -- substates.append (512), print (514), setattr (515) — which raises
            -- TypeError for the mandatory `__class__` entry — then
            -- state.initState() (517)
            let child := State.defaultChild key
            let s' := { st.self with substates := st.self.substates ++ [key] }
            match State.setattrPy s'.attrs key .plainVal with
            | .error e => .error e
            | .ok attrs' =>
            let s' := { s' with attrs := attrs' }
            match (if child.stateIsInitialized then Except.ok (child, [])
                   else initStateGo fuel (.enter child)) with
            | .error e => .error e
            | .ok (_, childEffs) =>
                let effs' := st.effs ++ [Eff.printed "_addSubstate"] ++ childEffs
                let st1 : InitLoopSt := { st with self := s', effs := effs' }
                -- line 363: `if key is initialSubstateName:` — reading the local
                -- initialSubstateName raises UnboundLocalError when line 320 never
                -- ran; `is` on these interned identifier strings is modelled as
                -- string equality
                match st1.localInitialSubstateName with
                | none => .error (.unboundLocalError "initialSubstateName")
                | some nm =>
                    let selfMatched := { st1.self with initialSubstate := ISVal.stateInstance key }
                    let st2 : InitLoopSt :=
                      if key = nm then
                        { st1 with matched := true, self := selfMatched }
                      else
                        -- line 366: `elif historyState and ...` — historyState is None
                        st1
                    match initStateTail st2 with
                    | .error e => .error e
                    | .ok st' => initStateGo fuel (.loop st' tl)
          else
            match initStateTail st with
            | .error e => .error e
            | .ok st' => initStateGo fuel (.loop st' tl)

/-- `State.initState` (state.py lines 306-386).  The very first statement
(lines 307-308) returns when `self.stateIsInitialized` is truthy, before any
registration or mutation; otherwise the body runs (`initStateGo`). -/
def initState (fuel : Nat) (s : StateModel) : Except PyErr (StateModel × List Eff) :=
  if s.stateIsInitialized then .ok (s, [])
  else initStateGo fuel (.enter s)

/-- `State.tryToHandleEvent` (state.py lines 1067-1130), translated statement
by statement.  Lines 1068-1069 bind `trace` and `sc`; line 1070 is
`ret = undefined`, and `undefined` is not a defined name anywhere in the
module, so every call raises `NameError` before the first handler check.
(Had control proceeded, line 1074 `self._registeredEventHandlers[event]`
would raise `KeyError` for any event without a registered event handler:
Python dict indexing, unlike the original JavaScript member access, raises on
a missing key.)  The later statements (lines 1074-1130) are unreachable. -/
def tryToHandleEvent (s : StateModel) (_event : String) : Except PyErr Bool :=
  -- trace = self.trace ; sc = self.statechart
  let _trace := s.statechartPresent
  -- ret = undefined
  .error (.nameError "undefined")

/-- `State.respondsToEvent` (state.py lines 1325-1344), translated statement by
statement.  Line 1326 is `if self._registeredEventHandlers[event]:` — Python
dict indexing raises `KeyError` when `event` has no registered event handler.
When the event *is* a registered event handler name, the stored handler
function is truthy and line 1327 executes `return false`; `false` is not a
defined name in Python, so `NameError` is raised.  Either way no Boolean is
ever returned, and lines 1328-1344 (which also subscript `self[event]` and
use the undefined names `true` and `hasAttr`) are unreachable. -/
def respondsToEvent (s : StateModel) (event : String) : Except PyErr Bool :=
  if event ∈ s.registeredEventHandlerNames then
    .error (.nameError "false")
  else
    .error (.keyError event)

/-- `State.addSubstate` (state.py lines 550-582), translated statement by
statement.  Line 551 is `if empty(name):`, and `empty` is not a defined name
anywhere in the module, so every call raises `NameError` before any of the
documented validity checks.  Lines 555-582 (which also subscript `self[name]`
and read the undefined name `arguments`) are unreachable. -/
def addSubstate (_s : StateModel) (name : String) : Except PyErr (Option Unit) :=
  let _name := name
  .error (.nameError "empty")

/-- `State.resumeGotoState` (state.py lines 886-887):
`self.statechart.resumeGotoState()` — pure delegation to the owning
statechart, returning `None` and touching nothing else.  When no statechart
is assigned, `None.resumeGotoState` raises `AttributeError`.  The first
component of the result is the (unchanged) state, the second the calls made. -/
def resumeGotoState (s : StateModel) : Except PyErr (StateModel × List Eff) :=
  if s.statechartPresent then .ok (s, [Eff.scResumeGotoState])
  else .error (.attributeError "resumeGotoState")

/-- The kinds of value a caller can pass to `State.getState` / `State.gotoState`. -/
inductive GSValue where
  | pyNone
  | strVal (s : String) (identicalToSelfName : Bool)
  | stateClass (isSub : Bool)
  | stateInstance
deriving Repr, DecidableEq

/-- What `getState` can resolve to: the state itself (line 801) or the class
handed in (line 804; note the code returns the *class*, not an instance). -/
inductive Resolved where
  | selfState
  | theClass
deriving Repr, DecidableEq

/-- `State.getState` (state.py lines 799-806), translated statement by
statement.

* Line 800, `if value is self.name:`: object identity.  `None is None` is true
  when both value and name are `None`; a class or instance is never identical
  to a string or to `None`; for a string argument the model carries the
  object-identity fact `identicalToSelfName` explicitly (identity of two equal
  strings is a CPython interning detail not derivable from their contents).
* Line 803, `if issubclass(value, State):`: `issubclass` raises `TypeError`
  when its first argument is not a class (a string, an instance, or `None`).
* Line 806 calls `self.getSubstate(value, self._handleSubstateNotFound)` —
  but `getSubstate` (line 734) takes `(self, value, callback, target)` with
  no defaults, so the 2-argument call raises `TypeError`.  (Line 806 also
  lacks a `return`, so even a successful lookup would be dropped.)

Consequently `getState` either resolves successfully or raises; it can never
return `None`. -/
def getState (s : StateModel) (value : GSValue) : Except PyErr (Option Resolved) :=
  match value with
  | .pyNone =>
      if s.name = none then .ok (some .selfState)
      else .error (.typeError "issubclass() arg 1 must be a class")
  | .strVal _ ident =>
      if ident then .ok (some .selfState)
      else .error (.typeError "issubclass() arg 1 must be a class")
  | .stateInstance => .error (.typeError "issubclass() arg 1 must be a class")
  | .stateClass isSub =>
      if isSub then .ok (some .theClass)
      else .error (.typeError "getSubstate() takes exactly 4 arguments (3 given)")

/-- `State.findFirstRelativeCurrentState` (state.py lines 995-1011).  The
first statement reads `self.isCurrentState`, but the `State` class defines no
such property or attribute — only the method `_isCurrentState` (line 930) —
so the attribute lookup raises `AttributeError` on every call.  (The rest of
the method is unreachable and also broken: line 1004 calls
`parent.findFirstRelativeCurrentState()` and line 1007 calls
`self.getSubstate(anchor)` with too few arguments.) -/
def findFirstRelativeCurrentState (_s : StateModel) : Except PyErr (Option Resolved) :=
  .error (.attributeError "isCurrentState")

/-- `State.gotoState` (state.py lines 833-843), translated statement by
statement.  Line 834 resolves the value via `getState`.  Line 836 is
`if state is not None:` — the guard is *inverted* relative to the method's
docstring, to its own error message and to the sister method
`gotoHistoryState` (line 874, `if state is None:`): a successfully resolved
state is reported as an invalid value and no transition is started.  On the
other branch (`state` is `None`, which `getState` can in fact never produce)
line 841 calls `findFirstRelativeCurrentState`, and line 843 would evaluate
the undefined name `false` inside
`self.statechart.gotoState(state, fromState, false, context)`, raising
`NameError` — so no call into the statechart can ever happen. -/
def gotoState (s : StateModel) (value : GSValue) : Except PyErr (List Eff) :=
  match getState s value with
  | .error e => .error e
  | .ok (some _) =>
      .ok [Eff.logError "can not go to state {0} from state {1}. Invalid value."]
  | .ok none =>
      match findFirstRelativeCurrentState s with
      | .error e => .error e
      | .ok _ => .error (.nameError "false")

end State

/-! ## Claim theorems -/

/-- C1: the claim says `State.tryToHandleEvent` tries a basic method, a
registered string handler, a registered regular-expression handler and
`unknownEvent` in that order and returns True/False accordingly.  In the code
(state.py line 1070) the statement `ret = undefined` evaluates the undefined
name `undefined` first, so every call raises `NameError` and no handler is
ever tried: the method's behaviour contradicts its own doc comment
(lines 1024-1039). -/
theorem C1_tryToHandleEvent_always_raises :
    ∀ (s : StateModel) (event : String),
      State.tryToHandleEvent s event = .error (.nameError "undefined") := by
  intro s event
  rfl

/-- C2: the claim says `StatePathMatcher.match` returns True when the parsed
expression is satisfied by the path (matched end-to-start) and returns False
for a non-string path.  In the code (state_path_matcher.py lines 161-165) a
string path reaches `isinstance(path, String)` and raises `NameError` (the
module never defines or imports `String` — or anything else), and a
non-string path raises `AttributeError` at `path.split('.')`, so no call ever
returns True, contradicting the method's docstring. -/
theorem C2_match_never_returns :
    StatePathMatcher.match' ⟨some "foo"⟩ (.pyStr "foo") = .error (.nameError "String")
    ∧ StatePathMatcher.match' ⟨some "foo"⟩ .pyNone = .error (.attributeError "split")
    ∧ ∀ (m : StatePathMatcher) (p : PyPathVal),
        ∀ b : Bool, StatePathMatcher.match' m p ≠ .ok b := by
  refine ⟨rfl, rfl, ?_⟩
  intro m p b
  cases p <;> simp [StatePathMatcher.match']

/-- C3: the claim says `_matchConcurrent` accepts any permutation of a
concurrent group's branches and advances the marker past all of them.  In the
code (sequence_matcher.py) a concurrent group cannot even be built —
`beginConcurrent`'s dict literal evaluates the undefined name `values`
(line 41) — and `_matchConcurrent` itself evaluates `match = false`
(line 125), raising `NameError` before examining a single branch, which
contradicts the interleaving diagram in the method's own comment
(lines 104-118). -/
theorem C3_matchConcurrent_always_raises :
    StatechartSequenceMatcher.matchConcurrent ⟨9⟩ ⟨"concurrent", [.groupDict, .groupDict]⟩ 0
      = .error (.nameError "false")
    ∧ StatechartSequenceMatcher.beginConcurrent ⟨⟨9⟩, [], ⟨"concurrent", []⟩⟩
      = .error (.nameError "values")
    ∧ ∀ (mon : StatechartMonitor) (g : Group) (marker : Nat),
        StatechartSequenceMatcher.matchConcurrent mon g marker = .error (.nameError "false") := by
  exact ⟨rfl, rfl, fun _ _ _ => rfl⟩

/-- C4: the claim says that after a balanced `begin`...`end` the matcher's
`end()` returns True exactly when the final marker equals the monitor
sequence's length, and raises when the stack is unbalanced.  In the code,
`begin` raises `NameError` (`values` in `beginSequence`'s dict literal,
sequence_matcher.py line 55) so the protocol cannot start, and `end` itself
(line 26) evaluates the undefined name `length` and raises `NameError`
instead of returning a Boolean. -/
theorem C4_begin_end_always_raise :
    StatechartSequenceMatcher.begin ⟨⟨3⟩, [], ⟨"sequence", []⟩⟩ = .error (.nameError "values")
    ∧ StatechartSequenceMatcher.beginSequence ⟨⟨3⟩, [], ⟨"sequence", []⟩⟩
      = .error (.nameError "values")
    ∧ StatechartSequenceMatcher.end' ⟨⟨3⟩, [⟨"sequence", []⟩], ⟨"sequence", []⟩⟩
      = .error (.nameError "length")
    ∧ ∀ (m : StatechartSequenceMatcher), ∀ b : Bool,
        StatechartSequenceMatcher.end' m ≠ .ok b := by
  refine ⟨rfl, rfl, rfl, ?_⟩
  intro m b
  unfold StatechartSequenceMatcher.end'
  split
  · simp
  · split
    · simp
    · cases h : StatechartSequenceMatcher.matchSequence m.monitor m.start 0 <;> simp

/-- C5: the claim says `State.gotoState` logs an error and performs no
transition when resolution fails, and drives the transition through the
statechart when resolution succeeds.  In the code (state.py line 836) the
guard is `if state is not None:` — inverted relative to the docstring and to
`gotoHistoryState` (line 874) — so a successfully resolved state is reported
as "Invalid value" and no transition is started; the theorem exhibits this on
a resolvable value (a `State` subclass) and also shows that no call of
`gotoState` can ever reach the statechart's `gotoState`. -/
theorem C5_gotoState_inverted_guard :
    State.getState ⟨some "a", true, .pyNone, false, none, false, true, [], [], [], [], [], []⟩
        (.stateClass true) = .ok (some .theClass)
    ∧ State.gotoState ⟨some "a", true, .pyNone, false, none, false, true, [], [], [], [], [], []⟩
        (.stateClass true)
      = .ok [Eff.logError "can not go to state {0} from state {1}. Invalid value."]
    ∧ ∀ (s : StateModel) (v : State.GSValue),
        State.gotoState s v ≠ .ok [Eff.scGotoState] := by
  refine ⟨rfl, rfl, ?_⟩
  intro s v
  unfold State.gotoState
  cases h : State.getState s v with
  | error e => simp
  | ok r =>
      cases r with
      | some x => simp
      | none => simp [State.findFirstRelativeCurrentState]

/-- C6: the claim says that an `initialSubstate` given as a `HistoryState`
class is instantiated and installed by `initState` (or rejected and reset to
`None` when it lacks a default state).  In the code neither ever happens.
First, the branch guard on state.py line 331,
`inspect.isclass(initialSubstate) and isinstance(initialSubstate, HistoryState)`,
is unsatisfiable — a class object is not an *instance* of `HistoryState` (the
original used `issubclass`) — so the only statements that could create or
install a history-state instance (lines 332-339) are dead code.  Second, the
run itself cannot even complete: the `dir(self)` loop necessarily reaches the
mandatory `__class__` attribute, a `State` subclass, and `_addSubstate`'s
`setattr(self, '__class__', <instance>)` (line 515) raises `TypeError` — so
`initState` on a state whose `initialSubstate` is a history-state class
raises instead of installing anything (had it survived that, line 363 would
raise `UnboundLocalError` for this non-string `initialSubstate`). -/
theorem C6_historyState_branch_never_fires :
    (∀ v : ISVal, (inspect_isclass v && isinstance_HistoryState v) = false)
    ∧ State.initState 5
        ⟨some "root", false, .historyClass (some "x"), false, none, false, true,
          [], [], [("misc", .plainVal)], [], [], []⟩
      = .error (.typeError "__class__ must be set to a class") := by
  constructor
  · intro v
    cases v <;> rfl
  · rfl

/-- C7: `State.resumeGotoState` (state.py lines 886-887) resumes a suspended
transition purely by delegating to the owning statechart's `resumeGotoState`,
leaving the state itself untouched and performing no other effect — exactly
as the claim states. -/
theorem C7_resumeGotoState_delegates (s : StateModel)
    (h : s.statechartPresent = true) :
    State.resumeGotoState s = .ok (s, [Eff.scResumeGotoState]) := by
  simp [State.resumeGotoState, h]

/-- Witness for C7 at a concrete state. -/
theorem C7_resumeGotoState_delegates_witness :
    (⟨some "a", true, .pyNone, false, none, false, true, [], [], [], [], [], []⟩
        : StateModel).statechartPresent = true
    ∧ State.resumeGotoState
        ⟨some "a", true, .pyNone, false, none, false, true, [], [], [], [], [], []⟩
      = .ok (⟨some "a", true, .pyNone, false, none, false, true, [], [], [], [], [], []⟩,
             [Eff.scResumeGotoState]) :=
  ⟨rfl, C7_resumeGotoState_delegates _ rfl⟩

/-- C8: the claim says `respondsToEvent` returns True exactly when
`tryToHandleEvent` would dispatch the event.  In the code neither function
ever returns a Boolean: `respondsToEvent` (state.py line 1326) indexes
`self._registeredEventHandlers[event]` and raises `KeyError` for any event
without a registered event handler, and evaluates the undefined name `false`
(line 1327) when the event *is* a registered handler name, while
`tryToHandleEvent` raises `NameError` at `ret = undefined` (line 1070). -/
theorem C8_respondsToEvent_tryToHandleEvent_raise :
    State.respondsToEvent ⟨some "a", true, .pyNone, false, none, false, true, [], [], [], [], [], []⟩
        "foo" = .error (.keyError "foo")
    ∧ State.respondsToEvent
        ⟨some "a", true, .pyNone, false, none, false, true, ["eventHandlerA"], [], [], [], [], []⟩
        "eventHandlerA" = .error (.nameError "false")
    ∧ State.tryToHandleEvent
        ⟨some "a", true, .pyNone, false, none, false, true, [], [], [], [], [], []⟩
        "foo" = .error (.nameError "undefined")
    ∧ ∀ (s : StateModel) (e : String), ∀ b : Bool,
        State.respondsToEvent s e ≠ .ok b := by
  refine ⟨rfl, rfl, rfl, ?_⟩
  intro s e b
  unfold State.respondsToEvent
  split <;> simp

/-- C9: `State.initState` (state.py lines 307-308) returns immediately when
`self.stateIsInitialized` is already true, before any registration or field
mutation, so a second call changes nothing — exactly as the claim states. -/
theorem C9_initState_idempotent (fuel : Nat) (s : StateModel)
    (h : s.stateIsInitialized = true) :
    State.initState fuel s = .ok (s, []) := by
  simp [State.initState, h]

/-- Witness for C9 at a concrete initialized state. -/
theorem C9_initState_idempotent_witness :
    (⟨some "a", true, .strVal "b", false, none, false, true, ["h"], [], [("b", .stateCls true)],
        ["b"], [], []⟩ : StateModel).stateIsInitialized = true
    ∧ State.initState 3
        ⟨some "a", true, .strVal "b", false, none, false, true, ["h"], [], [("b", .stateCls true)],
          ["b"], [], []⟩
      = .ok (⟨some "a", true, .strVal "b", false, none, false, true, ["h"], [],
            [("b", .stateCls true)], ["b"], [], []⟩, []) :=
  ⟨rfl, C9_initState_idempotent 3 _ rfl⟩

/-- C10: the claim says `State.addSubstate` rejects (returning `None`, state
unchanged) an empty name, an already-defined property name, an uninitialized
state or a non-`State` class, and adds a substate otherwise.  In the code
(state.py line 551) the very first check is `if empty(name):`, and `empty` is
not a defined name anywhere in the module, so every call raises `NameError`
before any validity check: `addSubstate` never returns `None` and never adds
a substate, contradicting its own doc comment (lines 521-548). -/
theorem C10_addSubstate_always_raises :
    ∀ (s : StateModel) (name : String),
      State.addSubstate s name = .error (.nameError "empty") := by
  intro s name
  rfl

end Kivy
